import Mathlib

/-!
Shallow embedding of `naga_oil_cli` (src/src/main.rs): the module harvester,
the definition normalizer, the dependency-resolution loop, the output-format
selector and the emission driver, together with theorems about them.
External collaborators (the naga_oil composer, the naga validator and the
backends) are treated as black boxes and appear as parameters.
-/

namespace NagaOilCli

/-! ## String helpers modelling Rust std behaviour -/

/-- Rust `str::trim`: drop whitespace from both ends. -/
def rustTrim (s : String) : String :=
  let cs := s.data.dropWhile Char.isWhitespace
  ⟨(cs.reverse.dropWhile Char.isWhitespace).reverse⟩

/-- Rust `str::to_lowercase` restricted to ASCII letters (all the CLI compares
against are ASCII literals). -/
def rustLower (s : String) : String :=
  ⟨s.data.map Char.toLower⟩

def isAsciiDigit (c : Char) : Bool :=
  '0' ≤ c && c ≤ '9'

def digitsVal (cs : List Char) : Nat :=
  cs.foldl (fun a c => a * 10 + (c.toNat - '0'.toNat)) 0

/-- Parse a non-empty all-digit character list to a natural number. -/
def parseNatDigits (cs : List Char) : Option Nat :=
  if cs ≠ [] && cs.all isAsciiDigit then some (digitsVal cs) else none

/-- Rust `u32::from_str`: optional leading `+`, digits, range check. -/
def rustParseU32 (s : String) : Option Nat :=
  let cs :=
    match s.data with
    | '+' :: rest => rest
    | cs => cs
  match parseNatDigits cs with
  | some n => if n < 4294967296 then some n else none
  | none => none

/-- Rust `i32::from_str`: optional sign, digits, range check. -/
def rustParseI32 (s : String) : Option Int :=
  let signed : Bool × List Char :=
    match s.data with
    | '+' :: rest => (false, rest)
    | '-' :: rest => (true, rest)
    | cs => (false, cs)
  match parseNatDigits signed.2 with
  | some n =>
    if signed.1 then
      if n ≤ 2147483648 then some (-(n : Int)) else none
    else
      if n ≤ 2147483647 then some (n : Int) else none
  | none => none

/-! ## Association lists modelling `HashMap` (only lookup behaviour matters) -/

def alLookup {α : Type} : List (String × α) → String → Option α
  | [], _ => none
  | (k, v) :: rest, key => if k = key then some v else alLookup rest key

/-- Rust `HashMap::contains_key`. -/
def alContains {α : Type} (m : List (String × α)) (key : String) : Bool :=
  (alLookup m key).isSome

/-- Rust `HashMap::insert`: replace the binding if the key is present,
otherwise append it. -/
def alInsert {α : Type} : List (String × α) → String → α → List (String × α)
  | [], key, v => [(key, v)]
  | (k, v0) :: rest, key, v =>
    if k = key then (key, v) :: rest else (k, v0) :: alInsert rest key v

/-! ## Definition normalizer (`parse_def_value`, `gather_defs`) -/

/-- `naga_oil::compose::ShaderDefValue` (constructors `Bool`, `Int`, `UInt` in
the source; lowercased here to avoid clashing with the Lean core types). -/
inductive ShaderDefValue where
  | bool (b : Bool)
  | int (i : Int)
  | uint (u : Nat)
  deriving DecidableEq, Repr

/-- Rust `str::strip_suffix('u')`. -/
def stripSuffixU (s : String) : Option String :=
  match s.data.reverse with
  | 'u' :: rest => some ⟨rest.reverse⟩
  | _ => none

/-- The numeric arm of `parse_def_value`: trailing `u` means `u32`, otherwise
`i32`; `.unwrap()` on a failed parse is modelled by `none`. -/
def numericParse (t : String) : Option ShaderDefValue :=
  match stripSuffixU t with
  | some rest => (rustParseU32 rest).map ShaderDefValue.uint
  | none => (rustParseI32 t).map ShaderDefValue.int

/-- `parse_def_value` from main.rs lines 103-115; a panicking parse is `none`. -/
def parse_def_value (v : String) : Option ShaderDefValue :=
  let t := rustLower (rustTrim v)
  if t = "true" then some (ShaderDefValue.bool true)
  else if t = "false" then some (ShaderDefValue.bool false)
  else numericParse t

/-- Find the first `=` in a character list, returning the parts around it. -/
def splitEqAux : List Char → List Char → Option (List Char × List Char)
  | _, [] => none
  | acc, c :: cs => if c = '=' then some (acc.reverse, cs) else splitEqAux (c :: acc) cs

/-- Rust `str::split_once('=')`. -/
def splitOnceEq (s : String) : Option (String × String) :=
  (splitEqAux [] s.data).map fun p => (⟨p.1⟩, ⟨p.2⟩)

/-- One iteration of the `gather_defs` loop body (main.rs lines 120-126). -/
def applyDef (m : List (String × ShaderDefValue)) (d : String) :
    Option (List (String × ShaderDefValue)) :=
  match splitOnceEq d with
  | some (name, value) => (parse_def_value value).map (alInsert m name)
  | none => some (alInsert m d (ShaderDefValue.bool true))

/-- Split a character list at every `;` (Rust `str::split(';')`): an empty
input gives one empty piece, adjacent separators give empty pieces. -/
def splitSemiAux : List Char → List Char → List (List Char)
  | acc, [] => [acc.reverse]
  | acc, c :: cs =>
    if c = ';' then acc.reverse :: splitSemiAux [] cs else splitSemiAux (c :: acc) cs

def splitSemiStr (s : String) : List String :=
  (splitSemiAux [] s.data).map fun cs => ⟨cs⟩

/-- `args.iter().chain(add).flat_map(|def| def.split(';'))`. -/
def splitSemis (args : List String) : List String :=
  (args.map splitSemiStr).flatten

/-- `gather_defs` from main.rs lines 117-129; `none` models a panic inside
`parse_def_value`. -/
def gather_defs (args add : List String) : Option (List (String × ShaderDefValue)) :=
  (splitSemis (args ++ add)).foldlM applyDef []

/-! ## Shader targets, languages and output formats -/

/-- `naga_oil::compose::ShaderType`. -/
inductive ShaderType where
  | Wgsl
  | GlslVertex
  | GlslFragment
  deriving DecidableEq, Repr

/-- `naga_oil::compose::ShaderLanguage`. -/
inductive ShaderLanguage where
  | Wgsl
  | Glsl
  deriving DecidableEq, Repr

/-- The final path component (after the last `/`). -/
def fileNamePart (p : String) : List Char :=
  (p.data.reverse.takeWhile (fun c => c ≠ '/')).reverse

/-- Rust `Path::extension`: the part of the file name after the last dot,
provided the part before that dot is non-empty. -/
def pathExtension (p : String) : Option String :=
  let f := (fileNamePart p).reverse
  if f.contains '.' then
    let ext := f.takeWhile (fun c => c ≠ '.')
    let stem := (f.dropWhile (fun c => c ≠ '.')).drop 1
    if stem = [] then none else some ⟨ext.reverse⟩
  else none

/-- `shader_type` from main.rs lines 131-138. -/
def shader_type (path : String) : Option ShaderType :=
  match pathExtension path with
  | some v =>
    if rustLower v = "wgsl" then some ShaderType.Wgsl
    else if rustLower v = "vert" then some ShaderType.GlslVertex
    else if rustLower v = "frag" then some ShaderType.GlslFragment
    else none
  | none => none

/-- `input_language` from main.rs lines 140-145. -/
def input_language (path : String) : Option ShaderLanguage :=
  (shader_type path).map fun ty =>
    match ty with
    | ShaderType.Wgsl => ShaderLanguage.Wgsl
    | ShaderType.GlslVertex => ShaderLanguage.Glsl
    | ShaderType.GlslFragment => ShaderLanguage.Glsl

/-- `OutputFormat` from main.rs lines 74-80. -/
inductive OutputFormat where
  | Wgsl
  | Glsl
  | Naga
  | Spirv
  deriving DecidableEq, Repr

/-- Output-format selection from main.rs lines 262-274: an explicit format
wins; otherwise the output path's extension is mapped through a fixed table;
otherwise `Wgsl`. -/
def select_output_format (explicitFmt : Option OutputFormat) (output : Option String) :
    OutputFormat :=
  match explicitFmt with
  | some f => f
  | none =>
    match output.bind pathExtension with
    | none => OutputFormat.Wgsl
    | some ext =>
      let e := rustLower (rustTrim ext)
      if e = "wgsl" then OutputFormat.Wgsl
      else if e = "frag" then OutputFormat.Glsl
      else if e = "vert" then OutputFormat.Glsl
      else if e = "json" then OutputFormat.Naga
      else if e = "spv" then OutputFormat.Spirv
      else if e = "bin" then OutputFormat.Spirv
      else OutputFormat.Wgsl

/-! ## Module harvester (main.rs lines 154-179)

Directory walking and `get_preprocessor_data` are external; a discovered file
is given by its path together with the preprocessor metadata extracted from
its text. -/

structure SourceFile where
  path : String
  language : ShaderLanguage
  directiveName : Option String
  reqs : List String
  deriving DecidableEq, Repr

/-- `name.unwrap_or(format!("\x22{}\x22", path))`: the declared name, or the
quoted path as fallback. -/
def resolvedName (f : SourceFile) : String :=
  match f.directiveName with
  | some n => n
  | none => "\"" ++ f.path ++ "\""

structure Harvest where
  includes : List (String × SourceFile)
  warnings : List String
  deriving DecidableEq, Repr

/-- Registration of one recognized file (main.rs lines 167-176): warn when the
resolved name is already registered, then insert (overwriting). -/
def registerFile (h : Harvest) (f : SourceFile) : Harvest :=
  let name := resolvedName f
  let warnings := if alContains h.includes name then h.warnings ++ [name] else h.warnings
  { includes := alInsert h.includes name f, warnings := warnings }

/-- Harvest a list of recognized files in discovery order. -/
def harvestFiles (fs : List SourceFile) : Harvest :=
  fs.foldl registerFile { includes := [], warnings := [] }

/-! ## Dependency resolver (main.rs lines 198-235)

The composer's module set is modelled by the list of module names in the
order they were added (`contains_module` is membership); the registry maps a
module name to its own requirement names. -/

abbrev Registry := List (String × List String)

/-- `Composer::contains_module`. -/
def containsModule (composer : List String) (n : String) : Bool :=
  decide (n ∈ composer)

/-- `HashSet::insert` on the pending set, keeping first-insertion order. -/
def insertReq (l : List String) (n : String) : List String :=
  if n ∈ l then l else l ++ [n]

/-- `HashSet::extend`. -/
def extendReqs (l : List String) (ns : List String) : List String :=
  ns.foldl insertReq l

/-- `HashSet` equality is set equality. -/
def setEq (a b : List String) : Bool :=
  a.all (fun x => decide (x ∈ b)) && b.all (fun x => decide (x ∈ a))

inductive ResolveError where
  | missingImport (name : String)
  | circular (stuck : List String)
  deriving DecidableEq, Repr

structure RoundState where
  composer : List String
  next : List String
  deriving DecidableEq, Repr

/-- The body of `for req in reqs.iter()` (main.rs lines 200-229): skip names
already in the composer; panic when a name is missing from the registry; add
the module when all of its own requirements are present; then extend the next
pending set with the unsatisfied sub-requirements and (unconditionally)
re-insert the name itself. -/
def resolveStep (reg : Registry) (st : RoundState) (req : String) :
    Except ResolveError RoundState :=
  if containsModule st.composer req then Except.ok st
  else
    match alLookup reg req with
    | none => Except.error (ResolveError.missingImport req)
    | some subreqs =>
      let composer :=
        if subreqs.all (containsModule st.composer) then st.composer ++ [req]
        else st.composer
      let next := extendReqs st.next (subreqs.filter (fun r => !containsModule composer r))
      let next := insertReq next req
      Except.ok { composer := composer, next := next }

inductive RoundOut where
  | ok (st : RoundState)
  | err (e : ResolveError) (composer : List String)
  deriving DecidableEq, Repr

/-- One resolution round: fold `resolveStep` over the pending names; a panic
aborts the round, carrying the composer state reached so far. -/
def roundGo (reg : Registry) (st : RoundState) : List String → RoundOut
  | [] => RoundOut.ok st
  | r :: rs =>
    match resolveStep reg st r with
    | Except.error e => RoundOut.err e st.composer
    | Except.ok st' => roundGo reg st' rs

inductive LoopOut where
  | success (composer : List String)
  | failed (e : ResolveError) (composer : List String)
  | fuelOut (composer : List String)
  deriving DecidableEq, Repr

/-- The `while !reqs.is_empty()` loop (main.rs lines 198-235), fuelled to stay
structurally recursive: run a round; panic on a missing import; panic with a
circular-dependency error when the next pending set equals the current one;
otherwise continue with the next pending set. -/
def resolveLoop (reg : Registry) : Nat → List String → List String → LoopOut
  | 0, composer, _ => LoopOut.fuelOut composer
  | fuel + 1, composer, reqs =>
    if reqs.isEmpty then LoopOut.success composer
    else
      match roundGo reg { composer := composer, next := [] } reqs with
      | RoundOut.err e c => LoopOut.failed e c
      | RoundOut.ok st =>
        if setEq st.next reqs then LoopOut.failed (ResolveError.circular st.next) st.composer
        else resolveLoop reg fuel st.composer st.next

/-! ## Emission driver (main.rs lines 238-343)

The composer, the naga validator and the backends are external: the
composition outcome, the validation outcome and the composed module's entry
points are parameters of the model. -/

inductive Stage where
  | Vertex
  | Fragment
  | Compute
  deriving DecidableEq, Repr

structure EntryPoint where
  name : String
  stage : Stage
  deriving DecidableEq, Repr

/-- The composed `naga::Module`, restricted to what the driver reads. -/
structure NagaModule where
  entry_points : List EntryPoint
  deriving DecidableEq, Repr

inductive PanicReason where
  | resolve (e : ResolveError)
  | badTargetExtension
  | defParse
  | noEntryPoint
  | validation
  deriving DecidableEq, Repr

inductive Outcome where
  | panicked (why : PanicReason)
  | exited (code : Nat) (diag : String)
  | finished (fmt : OutputFormat)
  | fuelOut
  deriving DecidableEq, Repr

/-- Observable trace of a run: the modules added to the composer, whether the
output destination was created, whether any bytes were written, and how the
process ended. -/
structure RunTrace where
  modulesAdded : List String
  outputCreated : Bool
  bytesWritten : Bool
  outcome : Outcome
  deriving DecidableEq, Repr

/-- Everything after `make_naga_module` returns (main.rs lines 247-343): on a
composition error print the formatted diagnostic and `exit(1)`; on success
create the output destination, select the format, validate, then read the
first entry point (`.first().unwrap()`, a panic when there is none) before
dispatching to a backend. -/
def finishRun (composeResult : Except String NagaModule) (output : Option String)
    (explicitFmt : Option OutputFormat) (validationOk : Bool)
    (modulesAdded : List String) : RunTrace :=
  match composeResult with
  | Except.error diag =>
    { modulesAdded := modulesAdded, outputCreated := false, bytesWritten := false,
      outcome := Outcome.exited 1 diag }
  | Except.ok m =>
    let created := output.isSome
    let fmt := select_output_format explicitFmt output
    if validationOk then
      match m.entry_points with
      | [] =>
        { modulesAdded := modulesAdded, outputCreated := created, bytesWritten := false,
          outcome := Outcome.panicked PanicReason.noEntryPoint }
      | _ :: _ =>
        { modulesAdded := modulesAdded, outputCreated := created, bytesWritten := true,
          outcome := Outcome.finished fmt }
    else
      { modulesAdded := modulesAdded, outputCreated := created, bytesWritten := false,
        outcome := Outcome.panicked PanicReason.validation }

/-- The post-harvest part of `main` (lines 181-343): resolve the target's
requirements, then build the `NagaModuleDescriptor` — whose fields are
evaluated in source order, so the `shader_type(..).unwrap_or_else(panic)` on
the target's extension fires before `gather_defs` runs and before the
composer is invoked — then hand over to `finishRun`. -/
def runMain (reg : Registry) (fuel : Nat) (targetPath : String)
    (targetReqs : List String) (defs addDefs : List String)
    (composeResult : Except String NagaModule) (output : Option String)
    (explicitFmt : Option OutputFormat) (validationOk : Bool) : RunTrace :=
  match resolveLoop reg fuel [] targetReqs with
  | LoopOut.fuelOut c =>
    { modulesAdded := c, outputCreated := false, bytesWritten := false,
      outcome := Outcome.fuelOut }
  | LoopOut.failed e c =>
    { modulesAdded := c, outputCreated := false, bytesWritten := false,
      outcome := Outcome.panicked (PanicReason.resolve e) }
  | LoopOut.success c =>
    match shader_type targetPath with
    | none =>
      { modulesAdded := c, outputCreated := false, bytesWritten := false,
        outcome := Outcome.panicked PanicReason.badTargetExtension }
    | some _ =>
      match gather_defs defs addDefs with
      | none =>
        { modulesAdded := c, outputCreated := false, bytesWritten := false,
          outcome := Outcome.panicked PanicReason.defParse }
      | some _ => finishRun composeResult output explicitFmt validationOk c


/-! ## Helper lemmas -/

theorem alLookup_alInsert_self {α : Type} (m : List (String × α)) (k : String) (v : α) :
    alLookup (alInsert m k v) k = some v := by
  induction m with
  | nil => simp [alInsert, alLookup]
  | cons p rest ih =>
    obtain ⟨k0, v0⟩ := p
    by_cases h : k0 = k
    · simp [alInsert, h, alLookup]
    · simp [alInsert, h, alLookup, ih]

theorem alLookup_alInsert_ne {α : Type} (m : List (String × α)) (k k' : String) (v : α)
    (h : k' ≠ k) : alLookup (alInsert m k v) k' = alLookup m k' := by
  induction m with
  | nil => simp [alInsert, alLookup, Ne.symm h]
  | cons p rest ih =>
    obtain ⟨k0, v0⟩ := p
    by_cases h0 : k0 = k
    · subst h0
      simp [alInsert, alLookup, Ne.symm h]
    · simp [alInsert, h0, alLookup, ih]

theorem splitEqAux_none : ∀ (cs : List Char), '=' ∉ cs → ∀ acc, splitEqAux acc cs = none := by
  intro cs
  induction cs with
  | nil => intro _ acc; rfl
  | cons c cs ih =>
    intro h acc
    have hc : ¬(c = '=') := fun hc => h (by rw [hc]; exact List.mem_cons_self '=' cs)
    simp only [splitEqAux, if_neg hc]
    exact ih (fun hm => h (List.mem_cons_of_mem c hm)) (c :: acc)

theorem applyDef_bare (m : List (String × ShaderDefValue)) (d : String) (h : '=' ∉ d.data) :
    applyDef m d = some (alInsert m d (ShaderDefValue.bool true)) := by
  have hs : splitOnceEq d = none := by
    unfold splitOnceEq
    rw [splitEqAux_none d.data h []]
    rfl
  simp [applyDef, hs]

theorem resolveStep_ok_composer {reg : Registry} {st st' : RoundState} {r : String}
    (h : resolveStep reg st r = Except.ok st') :
    st'.composer = st.composer ∨ st'.composer = st.composer ++ [r] := by
  unfold resolveStep at h
  split at h
  · cases h; exact Or.inl rfl
  · cases hlk : alLookup reg r with
    | none => rw [hlk] at h; cases h
    | some subreqs =>
      rw [hlk] at h
      simp only [] at h
      cases h
      by_cases ha : subreqs.all (containsModule st.composer) = true
      · simp [ha]
      · simp [ha]

theorem resolveStep_err {reg : Registry} {st : RoundState} {r : String} {e : ResolveError}
    (h : resolveStep reg st r = Except.error e) :
    e = ResolveError.missingImport r ∧ r ∉ st.composer ∧ alLookup reg r = none := by
  unfold resolveStep at h
  split at h
  · cases h
  · rename_i hc
    cases hlk : alLookup reg r with
    | none =>
      rw [hlk] at h
      refine ⟨by cases h; rfl, ?_, rfl⟩
      simpa [containsModule] using hc
    | some subreqs => rw [hlk] at h; simp only [] at h; cases h

theorem resolveStep_missing {reg : Registry} {st : RoundState} {m : String}
    (hnc : m ∉ st.composer) (hlk : alLookup reg m = none) :
    resolveStep reg st m = Except.error (ResolveError.missingImport m) := by
  have hcm : containsModule st.composer m = false := by simp [containsModule, hnc]
  simp [resolveStep, hcm, hlk]

theorem roundGo_err {reg : Registry} :
    ∀ (rs : List String) (st : RoundState) (e : ResolveError) (c : List String),
      roundGo reg st rs = RoundOut.err e c →
      ∃ n, e = ResolveError.missingImport n ∧ alLookup reg n = none ∧
        n ∉ st.composer ∧ n ∈ rs := by
  intro rs
  induction rs with
  | nil => intro st e c h; simp [roundGo] at h
  | cons r rs ih =>
    intro st e c h
    unfold roundGo at h
    cases hs : resolveStep reg st r with
    | error e2 =>
      rw [hs] at h
      cases h
      obtain ⟨he', hnc, hlk⟩ := resolveStep_err hs
      exact ⟨r, he', hlk, hnc, List.mem_cons_self r rs⟩
    | ok st' =>
      rw [hs] at h
      simp only [] at h
      obtain ⟨n, he, hlk, hnc, hmem⟩ := ih st' e c h
      refine ⟨n, he, hlk, ?_, List.mem_cons_of_mem _ hmem⟩
      intro hn
      apply hnc
      rcases resolveStep_ok_composer hs with hco | hco
      · rw [hco]; exact hn
      · rw [hco]; exact List.mem_append_left _ hn

theorem roundGo_misses {reg : Registry} :
    ∀ (rs : List String) (st : RoundState) (m : String),
      m ∈ rs → m ∉ st.composer → alLookup reg m = none →
      ∃ e c, roundGo reg st rs = RoundOut.err e c := by
  intro rs
  induction rs with
  | nil => intro st m hm; cases hm
  | cons r rs ih =>
    intro st m hm hnc hlk
    cases hs : resolveStep reg st r with
    | error e' => exact ⟨e', st.composer, by simp [roundGo, hs]⟩
    | ok st' =>
      have hrm : r ≠ m := by
        intro hrm
        subst hrm
        rw [resolveStep_missing hnc hlk] at hs
        cases hs
      have hm' : m ∈ rs := by
        cases hm with
        | head => exact absurd rfl hrm
        | tail _ hm => exact hm
      have hnc' : m ∉ st'.composer := by
        intro hn
        apply hnc
        rcases resolveStep_ok_composer hs with hco | hco
        · rw [hco] at hn; exact hn
        · rw [hco] at hn
          rcases List.mem_append.mp hn with h1 | h1
          · exact h1
          · exact absurd (List.mem_singleton.mp h1).symm hrm
      obtain ⟨e, c, hr⟩ := ih st' m hm' hnc' hlk
      exact ⟨e, c, by simp [roundGo, hs, hr]⟩

/-! ## Claim theorems -/

/-- Claim C1. The claim states that on an acyclic, fully-registered import
graph the resolution loop terminates successfully with every module added.
The code violates this: the loop body re-inserts a requirement into the next
pending set even when its module was just added (main.rs line 224), so the
round that adds the final modules produces a next pending set equal to the
current one and the no-progress check panics with a spurious circular
dependency. Concretely, a target requiring only `util` — which is registered
and has no requirements of its own — has its module added in round one, yet
the loop ends in the circular-dependency panic instead of success. -/
theorem acyclic_resolution_hits_spurious_circular_panic :
    roundGo [("util", [])] { composer := [], next := [] } ["util"] =
      RoundOut.ok { composer := ["util"], next := ["util"] } ∧
    resolveLoop [("util", [])] 9 [] ["util"] =
      LoopOut.failed (ResolveError.circular ["util"]) ["util"] :=
  ⟨by decide, by decide⟩

/-- Claim C2: whenever a round makes no progress — the next pending set is
set-equal to the current non-empty pending set — the resolver fails with a
circular-dependency error reporting that stuck set; for the minimal cycle
`A requires B, B requires A` the reported set is exactly `{A, B}`. -/
theorem stalled_round_reports_circular_dependency :
    (∀ (reg : Registry) (fuel : Nat) (composer reqs : List String) (st : RoundState),
      reqs ≠ [] →
      roundGo reg { composer := composer, next := [] } reqs = RoundOut.ok st →
      setEq st.next reqs = true →
      resolveLoop reg (fuel + 1) composer reqs =
        LoopOut.failed (ResolveError.circular st.next) st.composer) ∧
    (resolveLoop [("A", ["B"]), ("B", ["A"])] 5 [] ["A", "B"] =
        LoopOut.failed (ResolveError.circular ["B", "A"]) [] ∧
      setEq ["B", "A"] ["A", "B"] = true) := by
  constructor
  · intro reg fuel composer reqs st hne hr hs
    have hieq : reqs.isEmpty = false := by
      cases reqs with
      | nil => exact absurd rfl hne
      | cons _ _ => rfl
    simp [resolveLoop, hieq, hr, hs]
  · exact ⟨by decide, by decide⟩

/-- Witness for C2: the minimal two-module cycle, fed through the general
statement. -/
theorem stalled_round_reports_circular_dependency_witness :
    ((["A", "B"] : List String) ≠ [] ∧
      roundGo [("A", ["B"]), ("B", ["A"])] { composer := [], next := [] } ["A", "B"] =
        RoundOut.ok { composer := [], next := ["B", "A"] } ∧
      setEq ["B", "A"] ["A", "B"] = true) ∧
    resolveLoop [("A", ["B"]), ("B", ["A"])] 1 [] ["A", "B"] =
      LoopOut.failed (ResolveError.circular ["B", "A"]) [] :=
  ⟨⟨by decide, by decide, by decide⟩,
    stalled_round_reports_circular_dependency.1 [("A", ["B"]), ("B", ["A"])] 0 [] ["A", "B"]
      { composer := [], next := ["B", "A"] } (by decide) (by decide) (by decide)⟩

/-- Claim C3: a pending requirement that is neither in the composer nor in the
registry makes resolution fail at once with a missing-import error; the name
reported is itself a pending, unsatisfied, unregistered requirement, and the
failure happens in the very first round, independent of the fuel available
for further rounds. -/
theorem missing_import_fails_fatally (reg : Registry) (fuel : Nat)
    (composer reqs : List String) (m : String)
    (hm : m ∈ reqs) (hnc : m ∉ composer) (hlk : alLookup reg m = none) :
    ∃ n c, resolveLoop reg (fuel + 1) composer reqs =
        LoopOut.failed (ResolveError.missingImport n) c ∧
      alLookup reg n = none ∧ n ∉ composer ∧ n ∈ reqs := by
  have hieq : reqs.isEmpty = false := by
    cases reqs with
    | nil => cases hm
    | cons _ _ => rfl
  obtain ⟨e, c, hr⟩ := roundGo_misses reqs { composer := composer, next := [] } m hm hnc hlk
  obtain ⟨n, he, hlk', hnc', hmem⟩ :=
    roundGo_err reqs { composer := composer, next := [] } e c hr
  subst he
  refine ⟨n, c, ?_, hlk', hnc', hmem⟩
  simp [resolveLoop, hieq, hr]

/-- Witness for C3: a single pending requirement absent from an empty
registry. -/
theorem missing_import_fails_fatally_witness :
    ("missing" ∈ (["missing"] : List String) ∧ "missing" ∉ ([] : List String) ∧
      alLookup ([] : Registry) "missing" = none) ∧
    (∃ n c, resolveLoop ([] : Registry) 1 [] ["missing"] =
        LoopOut.failed (ResolveError.missingImport n) c ∧
      alLookup ([] : Registry) n = none ∧ n ∉ ([] : List String) ∧
      n ∈ (["missing"] : List String)) :=
  ⟨⟨by decide, by decide, rfl⟩,
    missing_import_fails_fatally [] 0 [] ["missing"] "missing" (by decide) (by decide) rfl⟩

/-- Claim C4 counterexample: the claim says an unsupported target extension
fails before any resolution attempt, with no module added. In the code the
target's extension is only inspected when the composer descriptor is built,
after the whole resolution loop: with target `shader.glsl` requiring `util`,
the module `util` is added to the composer first, and the run then dies in
the resolver (here with the spurious circular-dependency panic), not with the
extension diagnostic. -/
theorem unsupported_extension_after_resolution_counterexample :
    shader_type "shader.glsl" = none ∧
    runMain [("util", [])] 9 "shader.glsl" ["util"] [] []
        (Except.ok { entry_points := [{ name := "main", stage := Stage.Fragment }] })
        none none true =
      { modulesAdded := ["util"], outputCreated := false, bytesWritten := false,
        outcome := Outcome.panicked (PanicReason.resolve (ResolveError.circular ["util"])) } :=
  ⟨by decide, by decide⟩

/-- Claim C4 as amended: for a target with an unsupported extension the run
fails fatally with the extension-specific diagnostic only after the
resolution loop has completed successfully (so modules may already have been
added to the composer), before definitions are gathered and before the
composer is invoked or any output is produced. -/
theorem unsupported_extension_panics_after_resolution (reg : Registry) (fuel : Nat)
    (targetPath : String) (targetReqs defs addDefs : List String)
    (cr : Except String NagaModule) (out : Option String)
    (ef : Option OutputFormat) (v : Bool) (c : List String)
    (hext : shader_type targetPath = none)
    (hres : resolveLoop reg fuel [] targetReqs = LoopOut.success c) :
    runMain reg fuel targetPath targetReqs defs addDefs cr out ef v =
      { modulesAdded := c, outputCreated := false, bytesWritten := false,
        outcome := Outcome.panicked PanicReason.badTargetExtension } := by
  simp [runMain, hres, hext]

/-- Witness for the amended C4: a `.glsl` target with no requirements. -/
theorem unsupported_extension_panics_after_resolution_witness :
    (shader_type "shader.glsl" = none ∧
      resolveLoop ([] : Registry) 1 [] [] = LoopOut.success []) ∧
    runMain [] 1 "shader.glsl" [] [] [] (Except.error "diag") none none true =
      { modulesAdded := [], outputCreated := false, bytesWritten := false,
        outcome := Outcome.panicked PanicReason.badTargetExtension } :=
  ⟨⟨by decide, by decide⟩,
    unsupported_extension_panics_after_resolution [] 1 "shader.glsl" [] [] []
      (Except.error "diag") none none true [] (by decide) (by decide)⟩

/-- Claim C5: when two harvested files resolve to the same module name, the
second one encountered wins in the registry, exactly one duplicate warning is
emitted for that name, and processing continues (a later file with a
different name is still registered and triggers no warning). -/
theorem duplicate_module_name_last_wins_single_warning (f1 f2 f3 : SourceFile)
    (h2 : resolvedName f2 = resolvedName f1)
    (h3 : resolvedName f3 ≠ resolvedName f1) :
    alLookup (harvestFiles [f1, f2, f3]).includes (resolvedName f1) = some f2 ∧
    (harvestFiles [f1, f2, f3]).warnings = [resolvedName f1] ∧
    alLookup (harvestFiles [f1, f2, f3]).includes (resolvedName f3) = some f3 := by
  simp [harvestFiles, registerFile, h2, alContains, alLookup, alInsert, h3, Ne.symm h3]

/-- Concrete files for the C5 witness: two declaring `common`, one declaring
`other`. -/
def fileA : SourceFile :=
  { path := "a.wgsl", language := ShaderLanguage.Wgsl, directiveName := some "common", reqs := [] }

def fileB : SourceFile :=
  { path := "b.wgsl", language := ShaderLanguage.Wgsl, directiveName := some "common", reqs := [] }

def fileC : SourceFile :=
  { path := "c.wgsl", language := ShaderLanguage.Wgsl, directiveName := some "other", reqs := [] }

/-- Witness for C5: two files declaring `common`, then one declaring
`other`. -/
theorem duplicate_module_name_last_wins_single_warning_witness :
    (resolvedName fileB = resolvedName fileA ∧ resolvedName fileC ≠ resolvedName fileA) ∧
    alLookup (harvestFiles [fileA, fileB, fileC]).includes (resolvedName fileA) = some fileB ∧
    (harvestFiles [fileA, fileB, fileC]).warnings = [resolvedName fileA] ∧
    alLookup (harvestFiles [fileA, fileB, fileC]).includes (resolvedName fileC) = some fileC :=
  ⟨⟨by decide, by decide⟩,
    duplicate_module_name_last_wins_single_warning fileA fileB fileC (by decide) (by decide)⟩

/-- Claim C6: definition value parsing is case-insensitive on the boolean
literals, maps `-7` to `Int(-7)` and `7u` to `UInt(7)` (trailing `u` stripped,
rest parsed as `u32`), and any value that is neither a boolean literal nor a
parsable numeric literal fails to parse (`none`, the panic) instead of being
coerced. -/
theorem parse_def_value_cases :
    parse_def_value "true" = some (ShaderDefValue.bool true) ∧
    parse_def_value "FALSE" = some (ShaderDefValue.bool false) ∧
    parse_def_value "-7" = some (ShaderDefValue.int (-7)) ∧
    parse_def_value "7u" = some (ShaderDefValue.uint 7) ∧
    parse_def_value "banana" = none ∧
    (∀ s : String, rustLower (rustTrim s) ≠ "true" → rustLower (rustTrim s) ≠ "false" →
      numericParse (rustLower (rustTrim s)) = none → parse_def_value s = none) := by
  refine ⟨by decide, by decide, by decide, by decide, by decide, ?_⟩
  intro s h1 h2 h3
  simp [parse_def_value, h1, h2, h3]

/-- Witness for C6: the non-boolean, non-numeric value `z` fails to parse. -/
theorem parse_def_value_cases_witness :
    (rustLower (rustTrim "z") ≠ "true" ∧ rustLower (rustTrim "z") ≠ "false" ∧
      numericParse (rustLower (rustTrim "z")) = none) ∧
    parse_def_value "z" = none :=
  ⟨⟨by decide, by decide, by decide⟩,
    parse_def_value_cases.2.2.2.2.2 "z" (by decide) (by decide) (by decide)⟩

/-- Claim C7: `gather_defs` applies the base list and then the override list
through ordinary map insertion — an insert at an existing name replaces the
value, an insert at a fresh name leaves other names untouched, a bare name
(no `=`) means `Bool(true)` — and on base `["FOO", "BAR=1"]` with override
`["BAR=2u"]` the result is exactly `{FOO: Bool(true), BAR: UInt(2)}`. -/
theorem gather_defs_merge_semantics :
    gather_defs ["FOO", "BAR=1"] ["BAR=2u"] =
      some [("FOO", ShaderDefValue.bool true), ("BAR", ShaderDefValue.uint 2)] ∧
    (∀ (m : List (String × ShaderDefValue)) (k : String) (v : ShaderDefValue),
      alLookup (alInsert m k v) k = some v) ∧
    (∀ (m : List (String × ShaderDefValue)) (k k' : String) (v : ShaderDefValue),
      k' ≠ k → alLookup (alInsert m k v) k' = alLookup m k') ∧
    (∀ (m : List (String × ShaderDefValue)) (d : String), '=' ∉ d.data →
      applyDef m d = some (alInsert m d (ShaderDefValue.bool true))) :=
  ⟨by decide, fun m k v => alLookup_alInsert_self m k v,
    fun m k k' v h => alLookup_alInsert_ne m k k' v h,
    fun m d h => applyDef_bare m d h⟩

/-- Witness for C7: an override of `BAR` replaces its base value and leaves
`FOO` alone; the bare name `FOO` becomes `Bool(true)`. -/
theorem gather_defs_merge_semantics_witness :
    (("FOO" : String) ≠ "BAR" ∧ '=' ∉ ("FOO" : String).data) ∧
    alLookup (alInsert [("BAR", ShaderDefValue.int 1)] "BAR" (ShaderDefValue.uint 2)) "FOO" =
      alLookup [("BAR", ShaderDefValue.int 1)] "FOO" ∧
    applyDef [] "FOO" = some (alInsert [] "FOO" (ShaderDefValue.bool true)) :=
  ⟨⟨by decide, by decide⟩,
    gather_defs_merge_semantics.2.2.1 [("BAR", ShaderDefValue.int 1)] "BAR" "FOO"
      (ShaderDefValue.uint 2) (by decide),
    gather_defs_merge_semantics.2.2.2 [] "FOO" (by decide)⟩

/-- Claim C8: an explicitly requested output format always wins; with no
explicit format an output path with extension `frag` or `vert` selects GLSL,
`wgsl` selects WGSL, `json` selects the serialized naga IR, `spv` or `bin`
selects SPIR-V; and with no output path or an unmapped extension the format
defaults to WGSL. -/
theorem output_format_selection :
    (∀ (f : OutputFormat) (out : Option String), select_output_format (some f) out = f) ∧
    select_output_format none (some "out.frag") = OutputFormat.Glsl ∧
    select_output_format none (some "out.vert") = OutputFormat.Glsl ∧
    select_output_format none (some "out.wgsl") = OutputFormat.Wgsl ∧
    select_output_format none (some "out.json") = OutputFormat.Naga ∧
    select_output_format none (some "out.spv") = OutputFormat.Spirv ∧
    select_output_format none (some "out.bin") = OutputFormat.Spirv ∧
    select_output_format none none = OutputFormat.Wgsl ∧
    select_output_format none (some "out.xyz") = OutputFormat.Wgsl ∧
    select_output_format none (some "out") = OutputFormat.Wgsl :=
  ⟨fun f out => rfl, by decide, by decide, by decide, by decide, by decide, by decide,
    by decide, by decide, by decide⟩

/-- Claim C9: when the composer returns a composition error, the run prints
the formatted diagnostic and exits with status exactly 1, with the output
destination neither created nor written; on a successful composition the
destination is created (when one was requested). -/
theorem composition_error_exits_one_without_output :
    (∀ (diag : String) (out : Option String) (ef : Option OutputFormat) (v : Bool)
        (mods : List String),
      finishRun (Except.error diag) out ef v mods =
        { modulesAdded := mods, outputCreated := false, bytesWritten := false,
          outcome := Outcome.exited 1 diag }) ∧
    (∀ (m : NagaModule) (out : Option String) (ef : Option OutputFormat) (v : Bool)
        (mods : List String),
      (finishRun (Except.ok m) out ef v mods).outputCreated = out.isSome) := by
  constructor
  · intro diag out ef v mods; rfl
  · intro m out ef v mods
    cases v with
    | false => rfl
    | true =>
      cases hep : m.entry_points with
      | nil => simp [finishRun, hep]
      | cons a l => simp [finishRun, hep]

/-- Claim C10: for every run and every output format, the emission step reads
the first entry point of the composed module before dispatching to a backend;
a composed module with an empty entry-point list therefore aborts fatally
(after the output file was created) with no output bytes written, regardless
of the selected format. -/
theorem emission_reads_first_entry_point (m : NagaModule) (out : Option String)
    (ef : Option OutputFormat) (mods : List String)
    (h : m.entry_points = []) :
    finishRun (Except.ok m) out ef true mods =
      { modulesAdded := mods, outputCreated := out.isSome, bytesWritten := false,
        outcome := Outcome.panicked PanicReason.noEntryPoint } := by
  simp [finishRun, h]

/-- Witness for C10: an entry-point-free module headed for a WGSL output. -/
theorem emission_reads_first_entry_point_witness :
    (NagaModule.mk []).entry_points = [] ∧
    finishRun (Except.ok (NagaModule.mk [])) (some "out.wgsl") none true ["m"] =
      { modulesAdded := ["m"], outputCreated := true, bytesWritten := false,
        outcome := Outcome.panicked PanicReason.noEntryPoint } :=
  ⟨rfl, emission_reads_first_entry_point (NagaModule.mk []) (some "out.wgsl") none ["m"] rfl⟩
end NagaOilCli
